import Mathlib

/-!
Verification of the core logic of the Hsinchu Ubike route planner
(src/app.py): station loading, haversine nearest-station search,
distance-matrix parsing, route planning, coordinate-input resolution,
deep-link generation and the narrative-summary call.

External effects (HTTP requests, the Gemini model) are modelled as
explicit collaborator functions; floating-point numbers are modelled as
real numbers (exact coordinates) and rationals (parsed decimal input).
-/

namespace UbikeApp

/-- A normalized station record, as produced by load_ubike_data.
The source stores item.get(...) results, so name/addr/img may be None. -/
structure Station where
  name : Option String
  lat : ℝ
  lng : ℝ
  addr : Option String
  img : Option String

/-- math.radians: degrees to radians. -/
noncomputable def radians (x : ℝ) : ℝ := x * Real.pi / 180

/-- The intermediate value a of the haversine formula in src/app.py:
a = sin(dphi/2)**2 + cos(phi1)*cos(phi2)*sin(dlambda/2)**2. -/
noncomputable def hav_a (lat1 lon1 lat2 lon2 : ℝ) : ℝ :=
  Real.sin (radians (lat2 - lat1) / 2) ^ 2 +
    Real.cos (radians lat1) * Real.cos (radians lat2) *
      Real.sin (radians (lon2 - lon1) / 2) ^ 2

/-- haversine from src/app.py: 2 * R * asin(sqrt(a)) with R = 6371000. -/
noncomputable def haversine (lat1 lon1 lat2 lon2 : ℝ) : ℝ :=
  2 * 6371000 * Real.arcsin (Real.sqrt (hav_a lat1 lon1 lat2 lon2))

/-- Modelled from the spec: the spec (§4.1) asks for the asin argument to be
clamped into [-1, 1]; src/app.py applies no clamp, so this variant exists
only to be compared with the unclamped source definition. -/
noncomputable def haversine_clamped (lat1 lon1 lat2 lon2 : ℝ) : ℝ :=
  2 * 6371000 *
    Real.arcsin (min 1 (max (-1) (Real.sqrt (hav_a lat1 lon1 lat2 lon2))))

/-- A JSON numeric field of a raw station record: it can be absent,
present but not coercible by float(), or a number. -/
inductive JsonNum where
  | missing
  | nonNumeric
  | val (x : ℝ)

/-- Python float(item.get(key)): raises (here: none) on a missing key
(float(None)) or a non-numeric value. -/
def JsonNum.toFloat : JsonNum → Option ℝ
  | .val x => some x
  | _ => none

/-- A raw record of the station dataset, before normalization. -/
structure RawItem where
  name : Option String
  lat : JsonNum
  lng : JsonNum
  addr : Option String
  img : Option String

/-- load_ubike_data's normalization loop: each record is kept unless
float() raises on its latitude or longitude; the exception is swallowed
and the record skipped. item.get on the other keys never raises. -/
def load_ubike_data (data : List RawItem) : List Station :=
  data.filterMap fun item =>
    match item.lat.toFloat, item.lng.toFloat with
    | some la, some ln => some ⟨item.name, la, ln, item.addr, item.img⟩
    | _, _ => none

/-- A transport-level failure of an HTTP call: requests timeout, or a
non-2xx status raised by raise_for_status. -/
inductive TransportError where
  | timeout
  | httpError (code : ℕ)

/-- One leg of a directions route: duration value (may be absent) and a
start location (may be absent); coordinates as exact decimals. -/
structure DLeg where
  duration_value : Option Int
  start_location : Option (ℚ × ℚ)

/-- One route of a directions response: legs (troute.get("legs", [])
defaults a missing key to the empty list) and an optional summary. -/
structure DRoute where
  legs : List DLeg
  summary : Option String

/-- A directions response: zero or more routes. -/
structure DirectionsResponse where
  routes : List DRoute

/-- Python's str characters counted as whitespace by \s and str.strip
(ASCII range). -/
def isPySpace (c : Char) : Bool :=
  c = ' ' || c = '\t' || c = '\n' || c = '\r' || c = '\x0b' || c = '\x0c'

/-- Python s.strip(): drop whitespace from both ends. -/
def pyStrip (cs : List Char) : List Char :=
  ((cs.dropWhile isPySpace).reverse.dropWhile isPySpace).reverse

/-- Numeric value of one digit character. -/
def digitVal (c : Char) : ℕ := c.toNat - 48

/-- Numeric value of a digit string. -/
def digitsVal (ds : List Char) : ℕ :=
  ds.foldl (fun acc c => 10 * acc + digitVal c) 0

@[simp] theorem digitVal_0 : digitVal '0' = 0 := rfl

@[simp] theorem digitVal_1 : digitVal '1' = 1 := rfl

@[simp] theorem digitVal_2 : digitVal '2' = 2 := rfl

@[simp] theorem digitVal_3 : digitVal '3' = 3 := rfl

@[simp] theorem digitVal_4 : digitVal '4' = 4 := rfl

@[simp] theorem digitVal_5 : digitVal '5' = 5 := rfl

@[simp] theorem digitVal_6 : digitVal '6' = 6 := rfl

@[simp] theorem digitVal_7 : digitVal '7' = 7 := rfl

@[simp] theorem digitVal_8 : digitVal '8' = 8 := rfl

@[simp] theorem digitVal_9 : digitVal '9' = 9 := rfl

/-- Parse one number of the form -?\d+(\.\d+)? greedily, returning its
exact decimal value and the unconsumed rest; none if no digits.  The
optional fraction group consumes nothing when no digit follows the dot,
exactly as the regex group (\.\d+)? does. -/
def parseNum (cs : List Char) : Option (ℚ × List Char) :=
  let p := match cs with
    | '-' :: rest => (true, rest)
    | _ => (false, cs)
  let neg := p.1
  let cs1 := p.2
  let ds := cs1.takeWhile Char.isDigit
  let rest1 := cs1.dropWhile Char.isDigit
  if ds.isEmpty then none
  else
    let sign : ℚ := if neg then -1 else 1
    match rest1 with
    | '.' :: rest2 =>
      let fs := rest2.takeWhile Char.isDigit
      if fs.isEmpty then some (sign * (digitsVal ds : ℚ), rest1)
      else
        some (sign * ((digitsVal ds : ℚ) + (digitsVal fs : ℚ) / (10 : ℚ) ^ fs.length),
          rest2.dropWhile Char.isDigit)
    | _ => some (sign * (digitsVal ds : ℚ), rest1)

/-- The source pattern ^(-?\d+(\.\d+)?),\s*(-?\d+(\.\d+)?)$ of
input_latlng, as a deterministic parser (the regex is deterministic on
this alphabet): whitespace is allowed only after the comma. -/
def coord_match (cs : List Char) : Option (ℚ × ℚ) :=
  match parseNum cs with
  | none => none
  | some (a, rest) =>
    match rest with
    | ',' :: rest2 =>
      match parseNum (rest2.dropWhile isPySpace) with
      | none => none
      | some (b, rest4) => if rest4.isEmpty then some (a, b) else none
    | _ => none

/-- Modelled from the spec: the §4.2 coordinate grammar
^-?\d+(\.\d+)?\s*,\s*-?\d+(\.\d+)?$, which (unlike the source pattern)
also allows whitespace before the comma. -/
def spec_coord_grammar (cs : List Char) : Option (ℚ × ℚ) :=
  match parseNum cs with
  | none => none
  | some (a, rest) =>
    match rest.dropWhile isPySpace with
    | ',' :: rest2 =>
      match parseNum (rest2.dropWhile isPySpace) with
      | none => none
      | some (b, rest4) => if rest4.isEmpty then some (a, b) else none
    | _ => none

/-- The geocoding tail of input_latlng (lines 196-201): a failed request
or any missing field yields None via the surrounding try/except. -/
def geo_start_location (r : Except TransportError DirectionsResponse) :
    Option (ℚ × ℚ) :=
  match r with
  | .error _ => none
  | .ok resp =>
    match resp.routes.head? with
    | none => none
    | some route =>
      match route.legs.head? with
      | none => none
      | some leg => leg.start_location

/-- input_latlng from src/app.py, with google_directions passed in as the
geocoding collaborator.  Note: the float() calls on a matched group can
never raise, so the ValueError branch is dead; the pattern is matched
against the stripped input but the geocoder receives the original. -/
def input_latlng
    (dirs : String → String → String → Except TransportError DirectionsResponse)
    (s : String) : Option (ℚ × ℚ) :=
  if s = "" then none
  else
    match coord_match (pyStrip s.toList) with
    | some p => some p
    | none => geo_start_location (dirs s s "walking")

set_option maxRecDepth 10000 in
/-- C5 (counterexample): the input "1 ,2" matches the spec's coordinate
grammar (whitespace allowed before the comma), yet input_latlng does not
parse it directly: the result comes from the geocoding collaborator (an
external call), and with a collaborator returning (5,5) the resolver
returns (5,5), not (1,2). -/
theorem input_latlng_space_before_comma_consults_geocoder :
    spec_coord_grammar "1 ,2".toList = some (1, 2) ∧
    input_latlng
      (fun _ _ _ => Except.ok ⟨[⟨[⟨some 100, some (5, 5)⟩], some "r"⟩]⟩)
      "1 ,2" = some (5, 5) ∧
    input_latlng (fun _ _ _ => Except.error TransportError.timeout)
      "1 ,2" = none := by
  refine ⟨?_, ?_, ?_⟩ <;>
    norm_num +decide [input_latlng, spec_coord_grammar, coord_match, parseNum,
      digitsVal, pyStrip, geo_start_location]

set_option maxRecDepth 10000 in
/-- C5 (amended): for every input whose stripped form matches the source
pattern ^-?\d+(\.\d+)?,\s*-?\d+(\.\d+)?$ (whitespace allowed only after
the comma), input_latlng parses it directly as (lat, lng), independently
of the geocoding collaborator (so no external call can influence the
result). -/
theorem input_latlng_direct_parse
    (dirs : String → String → String → Except TransportError DirectionsResponse)
    (s : String) (a b : ℚ)
    (h : coord_match (pyStrip s.toList) = some (a, b)) :
    input_latlng dirs s = some (a, b) := by
  have hne : ¬ s = "" := by
    intro he
    rw [he] at h
    have h0 : coord_match (pyStrip ("" : String).toList) = none := rfl
    rw [h0] at h
    exact Option.noConfusion h
  unfold input_latlng
  rw [if_neg hne, h]

/-- C5 (witness): resolve("24.787,120.997") returns (24.787, 120.997)
regardless of the geocoding collaborator. -/
theorem input_latlng_direct_parse_witness :
    input_latlng (fun _ _ _ => Except.error TransportError.timeout)
      "24.787,120.997" = some (24.787, 120.997) :=
  input_latlng_direct_parse _ _ _ _
    (by norm_num +decide [coord_match, parseNum, digitsVal, pyStrip])

set_option maxRecDepth 10000 in
/-- C6 (counterexample): the coordinate pattern parses "999,999" to the
out-of-range pair (999, 999) (lat outside [-90, 90], lng outside
[-180, 180]); the claim says the resolver fails there, but input_latlng
returns the pair unchanged — the code performs no range validation. -/
theorem input_latlng_out_of_range_accepted :
    input_latlng (fun _ _ _ => Except.error TransportError.timeout)
      "999,999" = some (999, 999) ∧ (90 : ℚ) < 999 ∧ (180 : ℚ) < 999 := by
  refine ⟨?_, by norm_num, by norm_num⟩
  norm_num +decide [input_latlng, coord_match, parseNum, digitsVal, pyStrip,
    geo_start_location]

/-- C6 (amended): input_latlng fails (returns the error outcome None)
exactly when the input is the empty string, or the stripped input fails
the source coordinate pattern and the geocoding collaborator yields no
usable route; the empty input fails identically for every collaborator,
so no external call is made for it.  Parsed coordinates are not
range-checked, and whitespace-only input is sent to the geocoder. -/
theorem input_latlng_failure_characterization
    (dirs : String → String → String → Except TransportError DirectionsResponse)
    (s : String) :
    (input_latlng dirs s = none ↔
      s = "" ∨ (coord_match (pyStrip s.toList) = none ∧
        geo_start_location (dirs s s "walking") = none)) ∧
    (∀ dirs', input_latlng dirs' "" = none) := by
  constructor
  · by_cases he : s = ""
    · subst he
      simp [input_latlng]
    · unfold input_latlng
      rw [if_neg he]
      cases hm : coord_match (pyStrip s.toList) with
      | some p => simp [he, hm]
      | none => simp [he, hm]
  · intro dirs'
    simp [input_latlng]

/-- C7 (counterexample): a record with a missing name but numeric
coordinates is NOT skipped by load_ubike_data: item.get never raises, so
only the float() coercions on latitude/longitude guard the record, and
the station is kept with name None. -/
theorem load_ubike_data_keeps_missing_name :
    load_ubike_data [⟨none, .val 1, .val 2, none, none⟩] =
      [⟨none, 1, 2, none, none⟩] ∧
    load_ubike_data [⟨none, .val 1, .val 2, none, none⟩] ≠ [] := by
  constructor
  · rfl
  · intro h
    have h' : ([⟨none, 1, 2, none, none⟩] : List Station) = [] := h
    exact List.noConfusion h'

/-- C7 (amended): load_ubike_data silently skips exactly the records
whose latitude or longitude fails float() coercion (missing or
non-numeric); a record with non-numeric latitude contributes nothing,
every record with coercible coordinates is kept in place (regardless of
a missing name), and the load is non-empty whenever at least one valid
record remains. -/
theorem load_ubike_data_skips_exactly_uncoercible
    (pre post : List RawItem) (bad it : RawItem) (la ln : ℝ)
    (hbad : bad.lat.toFloat = none ∨ bad.lng.toFloat = none)
    (hla : it.lat.toFloat = some la) (hln : it.lng.toFloat = some ln) :
    load_ubike_data (pre ++ bad :: post) =
      load_ubike_data pre ++ load_ubike_data post ∧
    load_ubike_data (pre ++ it :: post) =
      load_ubike_data pre ++
        ⟨it.name, la, ln, it.addr, it.img⟩ :: load_ubike_data post ∧
    load_ubike_data (pre ++ it :: post) ≠ [] := by
  refine ⟨?_, ?_, ?_⟩
  · cases hfla : bad.lat.toFloat with
    | none => simp [load_ubike_data, List.filterMap_append, List.filterMap_cons, hfla]
    | some x =>
      cases hfln : bad.lng.toFloat with
      | none => simp [load_ubike_data, List.filterMap_append, List.filterMap_cons, hfla, hfln]
      | some y =>
        rcases hbad with h | h
        · rw [hfla] at h; exact Option.noConfusion h
        · rw [hfln] at h; exact Option.noConfusion h
  · simp [load_ubike_data, List.filterMap_append, List.filterMap_cons, hla, hln]
  · simp [load_ubike_data, List.filterMap_append, List.filterMap_cons, hla, hln]

/-- C7 (witness): with one uncoercible record and one valid record, the
bad record is dropped, the valid one (even with a missing name) is kept,
and the load is non-empty. -/
theorem load_ubike_data_skips_exactly_uncoercible_witness :
    load_ubike_data [⟨some "bad", .missing, .val 2, none, none⟩] =
      load_ubike_data [] ++ load_ubike_data [] ∧
    load_ubike_data [⟨none, .val 1, .val 2, none, none⟩] =
      load_ubike_data [] ++ ⟨none, 1, 2, none, none⟩ :: load_ubike_data [] ∧
    load_ubike_data [⟨none, .val 1, .val 2, none, none⟩] ≠ [] :=
  load_ubike_data_skips_exactly_uncoercible [] []
    ⟨some "bad", .missing, .val 2, none, none⟩
    ⟨none, .val 1, .val 2, none, none⟩ 1 2 (Or.inl rfl) rfl rfl

/-- C8: for every pair of coordinates with latitudes in [-90, 90]
(longitudes unrestricted, so antipodal and near-pole pairs included), the
haversine intermediate value a lies in [0, 1], hence its square root —
the asin argument — lies in [-1, 1] (no domain error is possible at the
inverse-sine step), and the source computation coincides with the spec's
clamped-before-asin variant on a sphere of radius 6371000 m. -/
theorem haversine_asin_arg_in_domain (lat1 lon1 lat2 lon2 : ℝ)
    (h1 : |lat1| ≤ 90) (h2 : |lat2| ≤ 90) :
    0 ≤ hav_a lat1 lon1 lat2 lon2 ∧ hav_a lat1 lon1 lat2 lon2 ≤ 1 ∧
    -1 ≤ Real.sqrt (hav_a lat1 lon1 lat2 lon2) ∧
    Real.sqrt (hav_a lat1 lon1 lat2 lon2) ≤ 1 ∧
    haversine lat1 lon1 lat2 lon2 = haversine_clamped lat1 lon1 lat2 lon2 := by
  obtain ⟨h1l, h1u⟩ := abs_le.mp h1
  obtain ⟨h2l, h2u⟩ := abs_le.mp h2
  have hpi := Real.pi_pos
  have hm1 : radians lat1 ∈ Set.Icc (-(Real.pi / 2)) (Real.pi / 2) := by
    unfold radians
    constructor <;> [nlinarith; nlinarith]
  have hm2 : radians lat2 ∈ Set.Icc (-(Real.pi / 2)) (Real.pi / 2) := by
    unfold radians
    constructor <;> [nlinarith; nlinarith]
  have hc1 : 0 ≤ Real.cos (radians lat1) := Real.cos_nonneg_of_mem_Icc hm1
  have hc2 : 0 ≤ Real.cos (radians lat2) := Real.cos_nonneg_of_mem_Icc hm2
  have hd : radians (lat2 - lat1) = radians lat2 - radians lat1 := by
    unfold radians; ring
  have hs1 : Real.sin (radians (lat2 - lat1) / 2) ^ 2 =
      1 / 2 - Real.cos (radians lat2 - radians lat1) / 2 := by
    rw [Real.sin_sq_eq_half_sub]
    rw [show 2 * (radians (lat2 - lat1) / 2) = radians (lat2 - lat1) by ring, hd]
  have hs2 : Real.sin (radians (lon2 - lon1) / 2) ^ 2 =
      1 / 2 - Real.cos (radians (lon2 - lon1)) / 2 := by
    rw [Real.sin_sq_eq_half_sub]
    rw [show 2 * (radians (lon2 - lon1) / 2) = radians (lon2 - lon1) by ring]
  have hid : hav_a lat1 lon1 lat2 lon2 =
      (1 - (Real.sin (radians lat1) * Real.sin (radians lat2) +
        Real.cos (radians lat1) * Real.cos (radians lat2) *
          Real.cos (radians (lon2 - lon1)))) / 2 := by
    unfold hav_a
    rw [hs1, hs2, Real.cos_sub]
    ring
  have ha0 : 0 ≤ hav_a lat1 lon1 lat2 lon2 := by
    unfold hav_a
    have hx := sq_nonneg (Real.sin (radians (lat2 - lat1) / 2))
    have hy : 0 ≤ Real.cos (radians lat1) * Real.cos (radians lat2) *
        Real.sin (radians (lon2 - lon1) / 2) ^ 2 :=
      mul_nonneg (mul_nonneg hc1 hc2) (sq_nonneg _)
    linarith
  have ha1 : hav_a lat1 lon1 lat2 lon2 ≤ 1 := by
    rw [hid]
    have hca := Real.cos_add (radians lat1) (radians lat2)
    have hc_add := Real.cos_le_one (radians lat1 + radians lat2)
    have hcl := Real.neg_one_le_cos (radians (lon2 - lon1))
    have hprod : 0 ≤ Real.cos (radians lat1) * Real.cos (radians lat2) *
        (Real.cos (radians (lon2 - lon1)) + 1) :=
      mul_nonneg (mul_nonneg hc1 hc2) (by linarith)
    nlinarith
  have hsq0 : 0 ≤ Real.sqrt (hav_a lat1 lon1 lat2 lon2) := Real.sqrt_nonneg _
  have hsq1 : Real.sqrt (hav_a lat1 lon1 lat2 lon2) ≤ 1 := Real.sqrt_le_one.mpr ha1
  refine ⟨ha0, ha1, by linarith, hsq1, ?_⟩
  unfold haversine haversine_clamped
  rw [max_eq_right (by linarith : (-1 : ℝ) ≤ _), min_eq_right hsq1]

/-- C8 (witness): the antipodal pole pair (90, 0) and (-90, 0) satisfies
the latitude bounds and the domain property. -/
theorem haversine_asin_arg_in_domain_witness :
    0 ≤ hav_a 90 0 (-90) 0 ∧ hav_a 90 0 (-90) 0 ≤ 1 ∧
    -1 ≤ Real.sqrt (hav_a 90 0 (-90) 0) ∧
    Real.sqrt (hav_a 90 0 (-90) 0) ≤ 1 ∧
    haversine 90 0 (-90) 0 = haversine_clamped 90 0 (-90) 0 :=
  haversine_asin_arg_in_domain 90 0 (-90) 0 (by norm_num) (by norm_num)

/-- Uppercase hexadecimal digit, as used by urllib percent-encoding. -/
def hexUpper (n : ℕ) : Char :=
  if n < 10 then Char.ofNat (48 + n) else Char.ofNat (55 + n)

/-- The UTF-8 bytes of a character (quote operates on the UTF-8
encoding of its input). -/
def utf8Bytes (c : Char) : List ℕ :=
  let n := c.toNat
  if n < 128 then [n]
  else if n < 2048 then [192 + n / 64, 128 + n % 64]
  else if n < 65536 then [224 + n / 4096, 128 + (n / 64) % 64, 128 + n % 64]
  else [240 + n / 262144, 128 + (n / 4096) % 64, 128 + (n / 64) % 64, 128 + n % 64]

/-- One percent-encoded byte: '%' followed by two uppercase hex digits. -/
def percentEncodeByte (b : ℕ) : List Char :=
  ['%', hexUpper (b / 16), hexUpper (b % 16)]

/-- urllib.parse.quote on one character with the default safe set: ASCII
letters, digits, '_', '.', '-', '~' and the default-safe '/' pass
through, everything else is percent-encoded byte by byte. -/
def quoteChar (c : Char) : List Char :=
  if c.isAlphanum || c = '_' || c = '.' || c = '-' || c = '~' || c = '/' then [c]
  else ((utf8Bytes c).map percentEncodeByte).flatten

/-- urllib.parse.quote with default arguments. -/
def quote (s : String) : String := ⟨(s.toList.map quoteChar).flatten⟩

/-- generate_maps_link from src/app.py: a pure string build, quoting the
two endpoints and appending the raw travel mode. -/
def generate_maps_link (origin destination mode : String) : String :=
  "https://www.google.com/maps/dir/?api=1" ++
    "&origin=" ++ quote origin ++ "&destination=" ++ quote destination ++
    "&travelmode=" ++ mode

/-- Modelled from the spec: the §6 deep-link URL format
"https://www.google.com/maps/dir/?api=1&origin=..&destination=..&travelmode=..". -/
def spec_deep_link (origin destination mode : String) : String :=
  "https://www.google.com/maps/dir/?api=1&origin=" ++ quote origin ++
    "&destination=" ++ quote destination ++ "&travelmode=" ++ mode

/-- C9: generate_maps_link is a pure function of its three string inputs
(so byte-identical across repeated calls), always equal to the spec's
deep-link format, and on the concrete coordinate pair the comma is
percent-encoded as %2C while digits and decimal points pass through. -/
theorem generate_maps_link_spec :
    (∀ origin destination mode,
      generate_maps_link origin destination mode =
        spec_deep_link origin destination mode) ∧
    generate_maps_link "24.787,120.997" "24.8,121.0" "walking" =
      "https://www.google.com/maps/dir/?api=1&origin=24.787%2C120.997&destination=24.8%2C121.0&travelmode=walking" := by
  constructor
  · intro origin destination mode
    unfold generate_maps_link spec_deep_link
    simp [String.append_assoc]
  · decide

/-- Python dict deletion at the top level, on an association-list view of
a dict: del d[k] removes the binding of k. -/
def dict_del {α : Type} (d : List (String × α)) (k : String) :
    List (String × α) :=
  d.filter fun kv => kv.1 != k

/-- Python d.get(k) / d[k] at the top level of an association-list view. -/
def dict_lookup {α : Type} (d : List (String × α)) (k : String) : Option α :=
  (d.find? fun kv => kv.1 == k).map Prod.snd

/-- call_gemini from src/app.py: summary.copy() gives a fresh top-level
dict, del removes its "links" binding, and the prompt sent to the model
is built from that stripped copy; the caller's summary is untouched, so
the pair returned here is (model response, caller-visible summary after
the call). -/
def call_gemini {α : Type} (model : List (String × α) → String)
    (summary : List (String × α)) : String × List (String × α) :=
  let summary_for_ai := dict_del summary "links"
  (model summary_for_ai, summary)

/-- find? for a key distinct from the deleted one is unaffected by the
deletion. -/
theorem find?_dict_del_ne {α : Type} (d : List (String × α)) (k dk : String)
    (hk : k ≠ dk) :
    (dict_del d dk).find? (fun kv => kv.1 == k) =
      d.find? (fun kv => kv.1 == k) := by
  induction d with
  | nil => rfl
  | cons kv rest ih =>
    unfold dict_del at ih ⊢
    rw [List.filter_cons]
    by_cases h1 : kv.1 = dk
    · have hkv : (kv.1 != dk) = false := by simp [h1]
      rw [hkv]
      have hne : ¬ ((kv.1 == k) = true) := by
        simp only [beq_iff_eq, h1]
        exact fun he => hk he.symm
      rw [if_neg (by simp),
        @List.find?_cons_of_neg _ (fun kv => kv.1 == k) kv rest hne]
      exact ih
    · have hkv : (kv.1 != dk) = true := by simp [h1]
      rw [hkv, if_pos rfl]
      by_cases h2 : kv.1 = k
      · rw [@List.find?_cons_of_pos _ (fun kv => kv.1 == k) kv _ (by simp [h2]),
          @List.find?_cons_of_pos _ (fun kv => kv.1 == k) kv rest (by simp [h2])]
      · rw [@List.find?_cons_of_neg _ (fun kv => kv.1 == k) kv _ (by simp [h2]),
          @List.find?_cons_of_neg _ (fun kv => kv.1 == k) kv rest (by simp [h2])]
        exact ih

/-- C10: call_gemini sends the narrative collaborator the summary with
the top-level "links" binding removed and every other binding intact,
and the caller's summary is unchanged after the call (the deletion hits
only the copy). -/
theorem call_gemini_strips_links_preserves_caller {α : Type}
    (model : List (String × α) → String) (summary : List (String × α)) :
    (call_gemini model summary).1 = model (dict_del summary "links") ∧
    dict_lookup (dict_del summary "links") "links" = none ∧
    (∀ k, k ≠ "links" →
      dict_lookup (dict_del summary "links") k = dict_lookup summary k) ∧
    (call_gemini model summary).2 = summary := by
  refine ⟨rfl, ?_, ?_, rfl⟩
  · have h : (dict_del summary "links").find?
        (fun kv => kv.1 == "links") = none := by
      rw [List.find?_eq_none]
      intro x hx
      unfold dict_del at hx
      rw [List.mem_filter] at hx
      simpa using hx.2
    unfold dict_lookup
    rw [h]
    rfl
  · intro k hk
    unfold dict_lookup
    rw [find?_dict_del_ne summary k "links" hk]

/-- C10 (witness): on a concrete two-entry summary, the stripped dict
has no "links" but keeps "origin", and the caller's summary survives. -/
theorem call_gemini_strips_links_preserves_caller_witness :
    (call_gemini (fun _ => "report") [("links", 1), ("origin", 2)]).1 =
      (fun _ => "report") (dict_del [("links", 1), ("origin", 2)] "links") ∧
    dict_lookup (dict_del [("links", 1), ("origin", 2)] "links") "links" =
      none ∧
    dict_lookup (dict_del [("links", 1), ("origin", 2)] "links") "origin" =
      dict_lookup [("links", 1), ("origin", 2)] "origin" ∧
    (call_gemini (fun _ => "report") [("links", 1), ("origin", 2)]).2 =
      [("links", 1), ("origin", 2)] := by
  have h := call_gemini_strips_links_preserves_caller
    (fun _ => "report") [("links", 1), ("origin", 2)]
  exact ⟨h.1, h.2.1, h.2.2.1 "origin" (by decide), h.2.2.2⟩

/-- The comparison passed to distances.sort(key=lambda x: x[0]): compare
pairs by their first (distance) component only. -/
noncomputable def byDistance (x y : ℝ × Station) : Bool :=
  decide (x.1 ≤ y.1)

/-- find_nearest_ubike from src/app.py: pair every station with its
haversine distance to the point, sort the pairs stably by distance
(Python's list.sort is stable; so is List.mergeSort), then return the
station components of the first top_k pairs. -/
noncomputable def find_nearest_ubike (user_lat user_lng : ℝ)
    (ubike_list : List Station) (top_k : ℕ) : List Station :=
  (((ubike_list.map fun ub => (haversine user_lat user_lng ub.lat ub.lng, ub)).mergeSort
      byDistance).take top_k).map fun u => u.2

/-- One cell of a distance-matrix response, with the nested distance and
duration dicts flattened to optional fields (item.get with a default
empty dict makes a missing field read as None, never an error). -/
structure DMElement where
  status : Option String
  distance_text : Option String
  distance_value : Option Int
  duration_text : Option String
  duration_value : Option Int

/-- One row of a distance-matrix response. -/
structure DMRow where
  elements : List DMElement

/-- A distance-matrix response: a matrix of rows of cells. -/
structure DMResponse where
  rows : List DMRow

/-- The populated travel-leg dict built by parse_dm. -/
structure LegData where
  distance_text : Option String
  distance_m : Option Int
  duration_text : Option String
  duration_s : Option Int
  status : Option String

/-- parse_dm from src/app.py: consult only cell [0][0]; a missing row or
cell (IndexError caught by the try/except) or a cell status other than
"OK" yields the empty dict (none); otherwise the five fields are copied,
each possibly None. -/
def parse_dm (dm : DMResponse) : Option LegData :=
  match dm.rows.head? with
  | none => none
  | some row =>
    match row.elements.head? with
    | none => none
    | some el =>
      if el.status = some "OK" then
        some ⟨el.distance_text, el.distance_value, el.duration_text,
          el.duration_value, el.status⟩
      else none

/-- The transit summary dict built by plan_route's try/except block:
empty (none) when the response has no route; otherwise the sum of the
leg duration values (each defaulting to 0) and the route summary
(defaulting to ""). -/
def transit_info_of (resp : DirectionsResponse) :
    Option (Int × String) :=
  match resp.routes.head? with
  | none => none
  | some r =>
    some ((r.legs.map fun leg => leg.duration_value.getD 0).sum,
      r.summary.getD "")

/-- The two Google collaborators used by plan_route, as abstract
functions: a call either fails at the transport level (requests timeout,
or raise_for_status on a non-2xx reply) or returns a parsed payload. -/
structure RouteAPI where
  distance_matrix :
    List String → List String → String → Except TransportError DMResponse
  directions :
    String → String → String → Except TransportError DirectionsResponse

/-- The deep links of a summary dict. -/
structure Links where
  walk1 : String
  bike : String
  walk2 : String
  transit : String

/-- The summary dict returned by plan_route. -/
structure Summary where
  origin_coords : ℝ × ℝ
  dest_coords : ℝ × ℝ
  ubike_start : Station
  ubike_end : Station
  walk_to_ubike : Option LegData
  bike_leg : Option LegData
  walk_from_ubike : Option LegData
  transit_option : Option (Int × String)
  links : Links

/-- How a plan_route invocation can fail: a transport-level failure of
one of its four routing calls propagates out of plan_route (the spec's
RoutingUnavailable), and indexing nearest_from[0] on an empty station
list raises (noStation). -/
inductive PlanError where
  | routingUnavailable (e : TransportError)
  | noStation

/-- plan_route from src/app.py, with the two Google collaborators and
the f-string coordinate formatting passed in.  The four network calls
happen in source order; the first transport failure aborts the whole
invocation with no summary. -/
noncomputable def plan_route (api : RouteAPI) (fmt : ℝ → ℝ → String)
    (user_origin user_destination : ℝ × ℝ) (ubike_list : List Station) :
    Except PlanError Summary :=
  let nearest_from := find_nearest_ubike user_origin.1 user_origin.2 ubike_list 3
  let nearest_to := find_nearest_ubike user_destination.1 user_destination.2 ubike_list 3
  match nearest_from.head?, nearest_to.head? with
  | some ubike_start, some ubike_end =>
    let ori_str := fmt user_origin.1 user_origin.2
    let start_str := fmt ubike_start.lat ubike_start.lng
    let dest_str := fmt user_destination.1 user_destination.2
    let end_str := fmt ubike_end.lat ubike_end.lng
    match api.distance_matrix [ori_str] [start_str] "walking" with
    | .error e => .error (.routingUnavailable e)
    | .ok dm1 =>
      match api.distance_matrix [start_str] [end_str] "bicycling" with
      | .error e => .error (.routingUnavailable e)
      | .ok dm2 =>
        match api.distance_matrix [end_str] [dest_str] "walking" with
        | .error e => .error (.routingUnavailable e)
        | .ok dm3 =>
          match api.directions ori_str dest_str "transit" with
          | .error e => .error (.routingUnavailable e)
          | .ok transit =>
            .ok
              { origin_coords := user_origin
                dest_coords := user_destination
                ubike_start := ubike_start
                ubike_end := ubike_end
                walk_to_ubike := parse_dm dm1
                bike_leg := parse_dm dm2
                walk_from_ubike := parse_dm dm3
                transit_option := transit_info_of transit
                links :=
                  ⟨generate_maps_link ori_str start_str "walking",
                   generate_maps_link start_str end_str "bicycling",
                   generate_maps_link end_str dest_str "walking",
                   generate_maps_link ori_str dest_str "transit"⟩ }
  | _, _ => .error .noStation

/-- summary[leg].get('duration_s', 0) in main: the empty leg dict reads
as 0; a populated leg reads its stored duration_s, which may be None. -/
def leg_duration_s (leg : Option LegData) : Option Int :=
  match leg with
  | none => some 0
  | some l => l.duration_s

/-- main's Ubike total t1 + t2 + t3 (lines 274-277), in seconds; none
models the TypeError Python would raise if a stored duration is None. -/
def ubike_total_s (s : Summary) : Option Int := do
  let t1 ← leg_duration_s s.walk_to_ubike
  let t2 ← leg_duration_s s.bike_leg
  let t3 ← leg_duration_s s.walk_from_ubike
  pure (t1 + t2 + t3)

/-- main's transit seconds: summary['transit_option'].get('duration_s', 0). -/
def transit_total_s (s : Summary) : Int :=
  match s.transit_option with
  | none => 0
  | some ti => ti.1

/-- Helper: when both nearest-station lookups succeed and all four
routing calls return payloads, plan_route returns exactly the summary
assembled from the parsed payloads. -/
theorem plan_route_ok (api : RouteAPI) (fmt : ℝ → ℝ → String)
    (uo ud : ℝ × ℝ) (ls : List Station) (stS stE : Station)
    (r1 r2 r3 : DMResponse) (rt : DirectionsResponse)
    (hS : (find_nearest_ubike uo.1 uo.2 ls 3).head? = some stS)
    (hE : (find_nearest_ubike ud.1 ud.2 ls 3).head? = some stE)
    (h1 : api.distance_matrix [fmt uo.1 uo.2] [fmt stS.lat stS.lng]
      "walking" = .ok r1)
    (h2 : api.distance_matrix [fmt stS.lat stS.lng] [fmt stE.lat stE.lng]
      "bicycling" = .ok r2)
    (h3 : api.distance_matrix [fmt stE.lat stE.lng] [fmt ud.1 ud.2]
      "walking" = .ok r3)
    (ht : api.directions (fmt uo.1 uo.2) (fmt ud.1 ud.2) "transit" = .ok rt) :
    plan_route api fmt uo ud ls = .ok
      { origin_coords := uo
        dest_coords := ud
        ubike_start := stS
        ubike_end := stE
        walk_to_ubike := parse_dm r1
        bike_leg := parse_dm r2
        walk_from_ubike := parse_dm r3
        transit_option := transit_info_of rt
        links :=
          ⟨generate_maps_link (fmt uo.1 uo.2) (fmt stS.lat stS.lng) "walking",
           generate_maps_link (fmt stS.lat stS.lng) (fmt stE.lat stE.lng) "bicycling",
           generate_maps_link (fmt stE.lat stE.lng) (fmt ud.1 ud.2) "walking",
           generate_maps_link (fmt uo.1 uo.2) (fmt ud.1 ud.2) "transit"⟩ } := by
  simp only [plan_route, hS, hE, h1, h2, h3, ht]

/-- C3: if any of the four routing calls issued by plan_route fails at
the transport level (timeout or non-2xx), the whole plan_route
invocation fails with the routing-unavailable error and no summary — in
particular no partial summary — is returned. -/
theorem plan_route_transport_failure_aborts (api : RouteAPI)
    (fmt : ℝ → ℝ → String) (uo ud : ℝ × ℝ) (ls : List Station)
    (stS stE : Station)
    (hS : (find_nearest_ubike uo.1 uo.2 ls 3).head? = some stS)
    (hE : (find_nearest_ubike ud.1 ud.2 ls 3).head? = some stE)
    (hfail :
      (∃ e, api.distance_matrix [fmt uo.1 uo.2] [fmt stS.lat stS.lng]
        "walking" = .error e) ∨
      (∃ e, api.distance_matrix [fmt stS.lat stS.lng] [fmt stE.lat stE.lng]
        "bicycling" = .error e) ∨
      (∃ e, api.distance_matrix [fmt stE.lat stE.lng] [fmt ud.1 ud.2]
        "walking" = .error e) ∨
      (∃ e, api.directions (fmt uo.1 uo.2) (fmt ud.1 ud.2) "transit" =
        .error e)) :
    (∃ e, plan_route api fmt uo ud ls =
      .error (PlanError.routingUnavailable e)) ∧
    ∀ s, plan_route api fmt uo ud ls ≠ .ok s := by
  have key : ∃ e, plan_route api fmt uo ud ls =
      .error (PlanError.routingUnavailable e) := by
    cases hc1 : api.distance_matrix [fmt uo.1 uo.2] [fmt stS.lat stS.lng]
        "walking" with
    | error e => exact ⟨e, by simp only [plan_route, hS, hE, hc1]⟩
    | ok r1 =>
      cases hc2 : api.distance_matrix [fmt stS.lat stS.lng]
          [fmt stE.lat stE.lng] "bicycling" with
      | error e => exact ⟨e, by simp only [plan_route, hS, hE, hc1, hc2]⟩
      | ok r2 =>
        cases hc3 : api.distance_matrix [fmt stE.lat stE.lng]
            [fmt ud.1 ud.2] "walking" with
        | error e => exact ⟨e, by simp only [plan_route, hS, hE, hc1, hc2, hc3]⟩
        | ok r3 =>
          cases hc4 : api.directions (fmt uo.1 uo.2) (fmt ud.1 ud.2)
              "transit" with
          | error e =>
            exact ⟨e, by simp only [plan_route, hS, hE, hc1, hc2, hc3, hc4]⟩
          | ok rt =>
            exfalso
            rcases hfail with ⟨e, h⟩ | ⟨e, h⟩ | ⟨e, h⟩ | ⟨e, h⟩
            · rw [hc1] at h; exact Except.noConfusion h
            · rw [hc2] at h; exact Except.noConfusion h
            · rw [hc3] at h; exact Except.noConfusion h
            · rw [hc4] at h; exact Except.noConfusion h
  obtain ⟨e, he⟩ := key
  refine ⟨⟨e, he⟩, fun s hs => ?_⟩
  rw [he] at hs
  exact Except.noConfusion hs

/-- C3 (witness): with one station, a constant formatter and an API
whose calls all time out, plan_route fails with routing-unavailable and
never returns a summary. -/
theorem plan_route_transport_failure_aborts_witness :
    (∃ e, plan_route
      ⟨fun _ _ _ => .error .timeout, fun _ _ _ => .error .timeout⟩
      (fun _ _ => "p") (0, 0) (2, 2) [⟨some "S", 1, 1, none, none⟩] =
      .error (PlanError.routingUnavailable e)) ∧
    ∀ s, plan_route
      ⟨fun _ _ _ => .error .timeout, fun _ _ _ => .error .timeout⟩
      (fun _ _ => "p") (0, 0) (2, 2) [⟨some "S", 1, 1, none, none⟩] ≠
      .ok s :=
  plan_route_transport_failure_aborts _ _ _ _ _
    ⟨some "S", 1, 1, none, none⟩ ⟨some "S", 1, 1, none, none⟩
    (by simp [find_nearest_ubike])
    (by simp [find_nearest_ubike])
    (Or.inl ⟨.timeout, rfl⟩)

/-- C2: when the three pairwise queries return legs with fixed durations
a, b, c and the transit query returns a first route whose legs sum to t,
plan_route returns a summary whose Ubike total is exactly a + b + c (a
missing leg would contribute 0 via leg_duration_s), whose transit total
is exactly t, and whose reported difference is t - (a + b + c). -/
theorem plan_route_fixed_duration_totals (api : RouteAPI)
    (fmt : ℝ → ℝ → String) (uo ud : ℝ × ℝ) (ls : List Station)
    (stS stE : Station) (r1 r2 r3 : DMResponse) (rt : DirectionsResponse)
    (l1 l2 l3 : LegData) (ti : Int × String) (a b c t : Int)
    (hS : (find_nearest_ubike uo.1 uo.2 ls 3).head? = some stS)
    (hE : (find_nearest_ubike ud.1 ud.2 ls 3).head? = some stE)
    (h1 : api.distance_matrix [fmt uo.1 uo.2] [fmt stS.lat stS.lng]
      "walking" = .ok r1)
    (h2 : api.distance_matrix [fmt stS.lat stS.lng] [fmt stE.lat stE.lng]
      "bicycling" = .ok r2)
    (h3 : api.distance_matrix [fmt stE.lat stE.lng] [fmt ud.1 ud.2]
      "walking" = .ok r3)
    (ht : api.directions (fmt uo.1 uo.2) (fmt ud.1 ud.2) "transit" = .ok rt)
    (p1 : parse_dm r1 = some l1) (d1 : l1.duration_s = some a)
    (p2 : parse_dm r2 = some l2) (d2 : l2.duration_s = some b)
    (p3 : parse_dm r3 = some l3) (d3 : l3.duration_s = some c)
    (pt : transit_info_of rt = some ti) (dt : ti.1 = t) :
    ∃ s, plan_route api fmt uo ud ls = .ok s ∧
      ubike_total_s s = some (a + b + c) ∧
      transit_total_s s = t ∧
      transit_total_s s - (ubike_total_s s).getD 0 = t - (a + b + c) := by
  refine ⟨_, plan_route_ok api fmt uo ud ls stS stE r1 r2 r3 rt
    hS hE h1 h2 h3 ht, ?_, ?_, ?_⟩ <;>
    simp [ubike_total_s, transit_total_s, leg_duration_s,
      p1, p2, p3, pt, d1, d2, d3, dt]

/-- C2 (witness): with a single station at (1,1), origin (0,0) and
destination (2,2), a formatter distinguishing the three points, and an
API returning durations 300 s, 600 s, 240 s for the three legs and one
transit route totalling 1200 s, the summary totals are exactly 1140 s
and 1200 s, and the Ubike plan is reported faster by 60 s. -/
theorem plan_route_fixed_duration_totals_witness :
    ∃ s, plan_route
      ⟨fun os _ m =>
          if m = "bicycling" then
            .ok ⟨[⟨[⟨some "OK", some "6 km", some 6000, some "10 min",
              some 600⟩]⟩]⟩
          else if os = ["O"] then
            .ok ⟨[⟨[⟨some "OK", some "0.4 km", some 400, some "5 min",
              some 300⟩]⟩]⟩
          else
            .ok ⟨[⟨[⟨some "OK", some "0.3 km", some 300, some "4 min",
              some 240⟩]⟩]⟩,
        fun _ _ _ =>
          .ok ⟨[⟨[⟨some 700, none⟩, ⟨some 500, none⟩], some "Bus 182"⟩]⟩⟩
      (fun la _ => if la = 0 then "O" else if la = 1 then "S" else "D")
      (0, 0) (2, 2) [⟨some "S", 1, 1, none, none⟩] = .ok s ∧
      ubike_total_s s = some 1140 ∧
      transit_total_s s = 1200 ∧
      transit_total_s s - (ubike_total_s s).getD 0 = 60 :=
  plan_route_fixed_duration_totals _ _ _ _ _
    ⟨some "S", 1, 1, none, none⟩ ⟨some "S", 1, 1, none, none⟩
    ⟨[⟨[⟨some "OK", some "0.4 km", some 400, some "5 min", some 300⟩]⟩]⟩
    ⟨[⟨[⟨some "OK", some "6 km", some 6000, some "10 min", some 600⟩]⟩]⟩
    ⟨[⟨[⟨some "OK", some "0.3 km", some 300, some "4 min", some 240⟩]⟩]⟩
    ⟨[⟨[⟨some 700, none⟩, ⟨some 500, none⟩], some "Bus 182"⟩]⟩
    ⟨some "0.4 km", some 400, some "5 min", some 300, some "OK"⟩
    ⟨some "6 km", some 6000, some "10 min", some 600, some "OK"⟩
    ⟨some "0.3 km", some 300, some "4 min", some 240, some "OK"⟩
    (1200, "Bus 182") 300 600 240 1200
    (by simp [find_nearest_ubike])
    (by simp [find_nearest_ubike])
    (by norm_num +decide)
    (by norm_num +decide)
    (by norm_num +decide)
    (by norm_num +decide)
    rfl rfl rfl rfl rfl rfl
    (by norm_num [transit_info_of])
    rfl

/-- C4: a distance-matrix response whose first cell is missing or has a
status other than "OK" parses to the empty leg (none) rather than an
error, and plan_route still returns a complete summary containing that
empty leg — no exception escapes. -/
theorem parse_dm_non_ok_gives_empty_leg_plan_completes (api : RouteAPI)
    (fmt : ℝ → ℝ → String) (uo ud : ℝ × ℝ) (ls : List Station)
    (stS stE : Station) (r1 r2 r3 : DMResponse) (rt : DirectionsResponse)
    (hS : (find_nearest_ubike uo.1 uo.2 ls 3).head? = some stS)
    (hE : (find_nearest_ubike ud.1 ud.2 ls 3).head? = some stE)
    (h1 : api.distance_matrix [fmt uo.1 uo.2] [fmt stS.lat stS.lng]
      "walking" = .ok r1)
    (h2 : api.distance_matrix [fmt stS.lat stS.lng] [fmt stE.lat stE.lng]
      "bicycling" = .ok r2)
    (h3 : api.distance_matrix [fmt stE.lat stE.lng] [fmt ud.1 ud.2]
      "walking" = .ok r3)
    (ht : api.directions (fmt uo.1 uo.2) (fmt ud.1 ud.2) "transit" = .ok rt)
    (hbad : ∀ row, r1.rows.head? = some row →
      ∀ el, row.elements.head? = some el → el.status ≠ some "OK") :
    parse_dm r1 = none ∧
    ∃ s, plan_route api fmt uo ud ls = .ok s ∧
      s.walk_to_ubike = none ∧
      s.bike_leg = parse_dm r2 ∧
      s.walk_from_ubike = parse_dm r3 ∧
      s.transit_option = transit_info_of rt ∧
      s.ubike_start = stS ∧ s.ubike_end = stE := by
  have hp : parse_dm r1 = none := by
    obtain ⟨rows⟩ := r1
    cases rows with
    | nil => rfl
    | cons row rest =>
      obtain ⟨els⟩ := row
      cases els with
      | nil => rfl
      | cons el erest =>
        have hne : el.status ≠ some "OK" := hbad _ rfl _ rfl
        unfold parse_dm
        simp [hne]
  refine ⟨hp, _, plan_route_ok api fmt uo ud ls stS stE r1 r2 r3 rt
    hS hE h1 h2 h3 ht, hp, rfl, rfl, rfl, rfl, rfl⟩

/-- C4 (witness): a ZERO_RESULTS first leg yields an empty walk leg
while plan_route still returns the full summary. -/
theorem parse_dm_non_ok_gives_empty_leg_plan_completes_witness :
    parse_dm ⟨[⟨[⟨some "ZERO_RESULTS", none, none, none, none⟩]⟩]⟩ = none ∧
    ∃ s, plan_route
      ⟨fun _ _ m =>
          if m = "bicycling" then
            .ok ⟨[⟨[⟨some "OK", some "6 km", some 6000, some "10 min",
              some 600⟩]⟩]⟩
          else .ok ⟨[⟨[⟨some "ZERO_RESULTS", none, none, none, none⟩]⟩]⟩,
        fun _ _ _ => .ok ⟨[⟨[⟨some 1200, none⟩], some "Bus 182"⟩]⟩⟩
      (fun _ _ => "p") (0, 0) (2, 2) [⟨some "S", 1, 1, none, none⟩] =
      .ok s ∧
      s.walk_to_ubike = none ∧
      s.bike_leg =
        parse_dm ⟨[⟨[⟨some "OK", some "6 km", some 6000, some "10 min",
          some 600⟩]⟩]⟩ ∧
      s.walk_from_ubike =
        parse_dm ⟨[⟨[⟨some "ZERO_RESULTS", none, none, none, none⟩]⟩]⟩ ∧
      s.transit_option =
        transit_info_of ⟨[⟨[⟨some 1200, none⟩], some "Bus 182"⟩]⟩ ∧
      s.ubike_start = ⟨some "S", 1, 1, none, none⟩ ∧
      s.ubike_end = ⟨some "S", 1, 1, none, none⟩ :=
  parse_dm_non_ok_gives_empty_leg_plan_completes _ _ _ _ _
    ⟨some "S", 1, 1, none, none⟩ ⟨some "S", 1, 1, none, none⟩
    ⟨[⟨[⟨some "ZERO_RESULTS", none, none, none, none⟩]⟩]⟩
    ⟨[⟨[⟨some "OK", some "6 km", some 6000, some "10 min", some 600⟩]⟩]⟩
    ⟨[⟨[⟨some "ZERO_RESULTS", none, none, none, none⟩]⟩]⟩
    ⟨[⟨[⟨some 1200, none⟩], some "Bus 182"⟩]⟩
    (by simp [find_nearest_ubike])
    (by simp [find_nearest_ubike])
    rfl rfl rfl rfl
    (by intro row hr el he
        cases hr
        cases he
        decide)


theorem byDistance_trans (a b c : ℝ × Station) :
    byDistance a b → byDistance b c → byDistance a c := by
  unfold byDistance
  simp only [decide_eq_true_eq]
  exact le_trans

theorem byDistance_total (a b : ℝ × Station) :
    byDistance a b || byDistance b a := by
  unfold byDistance
  simp only [Bool.or_eq_true, decide_eq_true_eq]
  exact le_total a.1 b.1

theorem sublist_filter_saturated {α : Type} (p : α → Bool) :
    ∀ {c m : List α}, List.Sublist c m → (∀ x ∈ c, p x) → List.Sublist c (m.filter p) := by
  intro c m hsub hall
  have hc : c.filter p = c := List.filter_eq_self.mpr hall
  rw [← hc]
  exact hsub.filter p

theorem eq_filter_of_sublist {α : Type} (p : α → Bool) :
    ∀ {c m : List α}, List.Sublist c m → (∀ x ∈ c, p x) →
      (m.filter p).length ≤ c.length → c = m.filter p := by
  intro c m hsub
  induction hsub with
  | slnil => intro _ _; rfl
  | @cons l₁ l₂ a h ih =>
    intro hall hlen
    rw [List.filter_cons] at hlen ⊢
    cases hpa : p a with
    | true =>
      exfalso
      have h1 : l₁.length ≤ (l₂.filter p).length :=
        (sublist_filter_saturated p h hall).length_le
      simp [hpa] at hlen
      omega
    | false =>
      simp only [Bool.false_eq_true, if_false]
      simp [hpa] at hlen
      exact ih hall hlen
  | @cons₂ l₁ l₂ a h ih =>
    intro hall hlen
    have hpa : p a = true := hall a (List.mem_cons_self a l₁)
    rw [List.filter_cons, hpa] at hlen ⊢
    simp only [if_true] at hlen ⊢
    simp at hlen
    have : l₁ = l₂.filter p :=
      ih (fun x hx => hall x (List.mem_cons_of_mem a hx)) (by omega)
    rw [this]

theorem mergeSort_byDistance_head (u v : ℝ) (ls : List Station)
    (hne : ls ≠ []) :
    ∃ h t, ((ls.map fun ub => (haversine u v ub.lat ub.lng, ub)).mergeSort
        byDistance) = h :: t ∧
      h.1 = haversine u v h.2.lat h.2.lng ∧
      (∀ s ∈ ls, h.1 ≤ haversine u v s.lat s.lng) ∧
      (∃ l1 l2, ls = l1 ++ h.2 :: l2 ∧
        ∀ y ∈ l1, h.1 < haversine u v y.lat y.lng) := by
  classical
  set f : Station → ℝ × Station := fun ub => (haversine u v ub.lat ub.lng, ub)
    with hf
  set l' := ls.map f with hlpdef
  set m := l'.mergeSort byDistance with hmdef
  have hm_perm : List.Perm m l' := List.mergeSort_perm l' byDistance
  have hmne : m ≠ [] := by
    intro h0
    have hlen := hm_perm.length_eq
    rw [h0] at hlen
    simp only [List.length_nil] at hlen
    have : l' = [] := List.length_eq_zero.mp hlen.symm
    rw [hlpdef] at this
    exact hne (List.map_eq_nil_iff.mp this)
  obtain ⟨h, t, hm⟩ := List.exists_cons_of_ne_nil hmne
  have hsorted : m.Pairwise fun x y => byDistance x y :=
    List.sorted_mergeSort byDistance_trans byDistance_total l'
  have hkey : ∀ x ∈ m, x.1 = haversine u v x.2.lat x.2.lng := by
    intro x hx
    have hx' : x ∈ l' := hm_perm.mem_iff.mp hx
    rw [hlpdef] at hx'
    obtain ⟨ub, _, rfl⟩ := List.mem_map.mp hx'
    rfl
  have hhm : h ∈ m := by rw [hm]; exact List.mem_cons_self h t
  have hmin : ∀ s ∈ ls, h.1 ≤ haversine u v s.lat s.lng := by
    intro s hs
    have hfs : f s ∈ m := hm_perm.mem_iff.mpr (by
      rw [hlpdef]; exact List.mem_map_of_mem f hs)
    rw [hm] at hfs
    rcases List.mem_cons.mp hfs with heq | hmem
    · have : h.1 = (f s).1 := by rw [heq]
      rw [this]
    · have hrel : byDistance h (f s) := by
        rw [hm] at hsorted
        exact List.rel_of_pairwise_cons hsorted hmem
      unfold byDistance at hrel
      exact of_decide_eq_true hrel
  set p : ℝ × Station → Bool := fun x => decide (x.1 = h.1) with hp
  have hph : p h = true := by simp [hp]
  set c := l'.filter p with hc
  have hcall : ∀ x ∈ c, p x := by
    intro x hx
    exact (List.mem_filter.mp hx).2
  have hcpair : c.Pairwise fun x y => byDistance x y := by
    apply List.pairwise_of_forall_mem_list
    intro a ha b hb
    have hpa := (List.mem_filter.mp ha).2
    have hpb := (List.mem_filter.mp hb).2
    simp only [hp, decide_eq_true_eq] at hpa hpb
    unfold byDistance
    rw [hpa, hpb]
    simp
  have hcsub : List.Sublist c m :=
    List.sublist_mergeSort byDistance_trans byDistance_total hcpair
      (List.filter_sublist l')
  have hlen_eq : (m.filter p).length = c.length := (hm_perm.filter p).length_eq
  have hceq : c = m.filter p :=
    eq_filter_of_sublist p hcsub hcall (le_of_eq hlen_eq)
  have hcfilter : l'.filter p = h :: t.filter p := by
    rw [← hc, hceq, hm, List.filter_cons, hph]
    simp
  obtain ⟨l1', l2', hl'eq, hnl1, -, -⟩ := List.filter_eq_cons_iff.mp hcfilter
  have hmap : ls.map f = l1' ++ h :: l2' := by rw [← hlpdef]; exact hl'eq
  obtain ⟨u1, u2', hls, hmap1, hmap2⟩ := List.map_eq_append_iff.mp hmap
  cases u2' with
  | nil => simp at hmap2
  | cons s0 u2 =>
    rw [List.map_cons] at hmap2
    have hfs0 : f s0 = h := (List.cons.inj hmap2).1
    have hs0 : h.2 = s0 := by rw [← hfs0]
    refine ⟨h, t, hm, hkey h hhm, hmin, u1, u2, ?_, ?_⟩
    · rw [hls, hs0]
    · intro y hy
      have hfy : f y ∈ l1' := by
        rw [← hmap1]
        exact List.mem_map_of_mem f hy
      have hnp := hnl1 _ hfy
      simp only [hp, decide_eq_true_eq] at hnp
      have hyls : y ∈ ls := by
        rw [hls]
        exact List.mem_append_left _ hy
      have hle := hmin y hyls
      have hnp2 : haversine u v y.lat y.lng ≠ h.1 := by
        simpa [hf] using hnp
      exact lt_of_le_of_ne hle (fun he => hnp2 he.symm)


theorem find_nearest_ubike_head (u v : ℝ) (ls : List Station) (k : ℕ)
    (hk : 1 ≤ k) (hne : ls ≠ []) :
    ∃ st rest, find_nearest_ubike u v ls k = st :: rest ∧
      (∀ s ∈ ls, haversine u v st.lat st.lng ≤ haversine u v s.lat s.lng) ∧
      (∃ l1 l2, ls = l1 ++ st :: l2 ∧
        ∀ y ∈ l1, haversine u v st.lat st.lng < haversine u v y.lat y.lng) := by
  obtain ⟨h, t, hm, hh1, hmin, l1, l2, hdec, hlt⟩ :=
    mergeSort_byDistance_head u v ls hne
  obtain ⟨k2, rfl⟩ : ∃ k2, k = k2 + 1 := ⟨k - 1, by omega⟩
  refine ⟨h.2, (t.take k2).map fun x => x.2, ?_, ?_, l1, l2, hdec, ?_⟩
  · unfold find_nearest_ubike
    rw [hm, List.take_succ_cons, List.map_cons]
  · intro s hs
    rw [← hh1]
    exact hmin s hs
  · intro y hy
    rw [← hh1]
    exact hlt y hy

theorem plan_route_start_end (api : RouteAPI) (fmt : ℝ → ℝ → String)
    (uo ud : ℝ × ℝ) (ls : List Station) (s : Summary)
    (h : plan_route api fmt uo ud ls = .ok s) :
    (find_nearest_ubike uo.1 uo.2 ls 3).head? = some s.ubike_start ∧
    (find_nearest_ubike ud.1 ud.2 ls 3).head? = some s.ubike_end := by
  cases hS : (find_nearest_ubike uo.1 uo.2 ls 3).head? with
  | none =>
    have hv : plan_route api fmt uo ud ls = .error .noStation := by
      simp only [plan_route, hS]
    rw [hv] at h
    exact Except.noConfusion h
  | some stS =>
    cases hE : (find_nearest_ubike ud.1 ud.2 ls 3).head? with
    | none =>
      have hv : plan_route api fmt uo ud ls = .error .noStation := by
        simp only [plan_route, hS, hE]
      rw [hv] at h
      exact Except.noConfusion h
    | some stE =>
      cases hc1 : api.distance_matrix [fmt uo.1 uo.2] [fmt stS.lat stS.lng]
          "walking" with
      | error e =>
        have hv : plan_route api fmt uo ud ls =
            .error (.routingUnavailable e) := by
          simp only [plan_route, hS, hE, hc1]
        rw [hv] at h
        exact Except.noConfusion h
      | ok r1 =>
        cases hc2 : api.distance_matrix [fmt stS.lat stS.lng]
            [fmt stE.lat stE.lng] "bicycling" with
        | error e =>
          have hv : plan_route api fmt uo ud ls =
              .error (.routingUnavailable e) := by
            simp only [plan_route, hS, hE, hc1, hc2]
          rw [hv] at h
          exact Except.noConfusion h
        | ok r2 =>
          cases hc3 : api.distance_matrix [fmt stE.lat stE.lng]
              [fmt ud.1 ud.2] "walking" with
          | error e =>
            have hv : plan_route api fmt uo ud ls =
                .error (.routingUnavailable e) := by
              simp only [plan_route, hS, hE, hc1, hc2, hc3]
            rw [hv] at h
            exact Except.noConfusion h
          | ok r3 =>
            cases hc4 : api.directions (fmt uo.1 uo.2) (fmt ud.1 ud.2)
                "transit" with
            | error e =>
              have hv : plan_route api fmt uo ud ls =
                  .error (.routingUnavailable e) := by
                simp only [plan_route, hS, hE, hc1, hc2, hc3, hc4]
              rw [hv] at h
              exact Except.noConfusion h
            | ok rt =>
              have hv := plan_route_ok api fmt uo ud ls stS stE r1 r2 r3 rt
                hS hE hc1 hc2 hc3 hc4
              rw [hv] at h
              injection h with h2
              subst h2
              exact ⟨rfl, rfl⟩

/-- C1: for every point and every k with 1 ≤ k ≤ number of stations,
find_nearest_ubike returns exactly k stations, ordered non-decreasing by
haversine distance to the point; its first element is a global minimum
of the distance over the whole station list and is the first station in
load order attaining that minimum (Python's sort is stable); and for
every successful plan_route invocation the chosen start and end
stations are, in this same sense, the single nearest stations to the
origin and the destination respectively. -/
theorem find_nearest_ubike_spec (u v : ℝ) (ls : List Station) (k : ℕ)
    (hk1 : 1 ≤ k) (hk2 : k ≤ ls.length) :
    (find_nearest_ubike u v ls k).length = k ∧
    List.Pairwise
      (fun s t => haversine u v s.lat s.lng ≤ haversine u v t.lat t.lng)
      (find_nearest_ubike u v ls k) ∧
    (∃ st rest, find_nearest_ubike u v ls k = st :: rest ∧
      (∀ s ∈ ls, haversine u v st.lat st.lng ≤ haversine u v s.lat s.lng) ∧
      (∃ l1 l2, ls = l1 ++ st :: l2 ∧
        ∀ y ∈ l1, haversine u v st.lat st.lng <
          haversine u v y.lat y.lng)) ∧
    (∀ api fmt uo ud ls2 s, plan_route api fmt uo ud ls2 = .ok s →
      ((∀ y ∈ ls2, haversine uo.1 uo.2 s.ubike_start.lat s.ubike_start.lng ≤
          haversine uo.1 uo.2 y.lat y.lng) ∧
       (∃ l1 l2, ls2 = l1 ++ s.ubike_start :: l2 ∧
          ∀ y ∈ l1, haversine uo.1 uo.2 s.ubike_start.lat s.ubike_start.lng <
            haversine uo.1 uo.2 y.lat y.lng) ∧
       (∀ y ∈ ls2, haversine ud.1 ud.2 s.ubike_end.lat s.ubike_end.lng ≤
          haversine ud.1 ud.2 y.lat y.lng) ∧
       (∃ l1 l2, ls2 = l1 ++ s.ubike_end :: l2 ∧
          ∀ y ∈ l1, haversine ud.1 ud.2 s.ubike_end.lat s.ubike_end.lng <
            haversine ud.1 ud.2 y.lat y.lng))) := by
  have hne : ls ≠ [] := by
    intro h0
    rw [h0] at hk2
    simp at hk2
    omega
  refine ⟨?_, ?_, find_nearest_ubike_head u v ls k hk1 hne, ?_⟩
  · unfold find_nearest_ubike
    rw [List.length_map, List.length_take, List.length_mergeSort,
      List.length_map]
    omega
  · unfold find_nearest_ubike
    rw [List.pairwise_map]
    have hsorted : List.Pairwise (fun x y => byDistance x y = true)
        ((ls.map fun ub => (haversine u v ub.lat ub.lng, ub)).mergeSort
          byDistance) :=
      List.sorted_mergeSort byDistance_trans byDistance_total _
    have htake := hsorted.sublist (List.take_sublist k _)
    refine List.Pairwise.imp_of_mem ?_ htake
    intro a b ha hb hab
    have ha2 : a ∈ ls.map fun ub => (haversine u v ub.lat ub.lng, ub) :=
      List.mem_mergeSort.mp (List.mem_of_mem_take ha)
    have hb2 : b ∈ ls.map fun ub => (haversine u v ub.lat ub.lng, ub) :=
      List.mem_mergeSort.mp (List.mem_of_mem_take hb)
    obtain ⟨ua, -, rfl⟩ := List.mem_map.mp ha2
    obtain ⟨ub, -, rfl⟩ := List.mem_map.mp hb2
    unfold byDistance at hab
    exact of_decide_eq_true hab
  · intro api fmt uo ud ls2 s h
    obtain ⟨hS, hE⟩ := plan_route_start_end api fmt uo ud ls2 s h
    have hne2 : ls2 ≠ [] := by
      intro h0
      rw [h0] at hS
      simp [find_nearest_ubike] at hS
    obtain ⟨stS, restS, hfS, hminS, hdecS⟩ :=
      find_nearest_ubike_head uo.1 uo.2 ls2 3 (by omega) hne2
    obtain ⟨stE, restE, hfE, hminE, hdecE⟩ :=
      find_nearest_ubike_head ud.1 ud.2 ls2 3 (by omega) hne2
    have heqS : s.ubike_start = stS := by
      rw [hfS] at hS
      simp only [List.head?_cons, Option.some.injEq] at hS
      exact hS.symm
    have heqE : s.ubike_end = stE := by
      rw [hfE] at hE
      simp only [List.head?_cons, Option.some.injEq] at hE
      exact hE.symm
    rw [heqS, heqE]
    exact ⟨hminS, hdecS, hminE, hdecE⟩

/-- C1 (witness): for one station and k = 1, the search returns exactly
that station, trivially sorted, a global minimum and the first minimum
in load order, and any successful plan picks it. -/
theorem find_nearest_ubike_spec_witness :
    (find_nearest_ubike 0 0 [⟨some "S", 1, 1, none, none⟩] 1).length = 1 ∧
    List.Pairwise
      (fun s t => haversine 0 0 s.lat s.lng ≤ haversine 0 0 t.lat t.lng)
      (find_nearest_ubike 0 0 [⟨some "S", 1, 1, none, none⟩] 1) ∧
    (∃ st rest,
      find_nearest_ubike 0 0 [⟨some "S", 1, 1, none, none⟩] 1 = st :: rest ∧
      (∀ s ∈ [(⟨some "S", 1, 1, none, none⟩ : Station)],
        haversine 0 0 st.lat st.lng ≤ haversine 0 0 s.lat s.lng) ∧
      (∃ l1 l2, [(⟨some "S", 1, 1, none, none⟩ : Station)] =
          l1 ++ st :: l2 ∧
        ∀ y ∈ l1, haversine 0 0 st.lat st.lng <
          haversine 0 0 y.lat y.lng)) ∧
    (∀ api fmt uo ud ls2 s, plan_route api fmt uo ud ls2 = .ok s →
      ((∀ y ∈ ls2, haversine uo.1 uo.2 s.ubike_start.lat s.ubike_start.lng ≤
          haversine uo.1 uo.2 y.lat y.lng) ∧
       (∃ l1 l2, ls2 = l1 ++ s.ubike_start :: l2 ∧
          ∀ y ∈ l1, haversine uo.1 uo.2 s.ubike_start.lat s.ubike_start.lng <
            haversine uo.1 uo.2 y.lat y.lng) ∧
       (∀ y ∈ ls2, haversine ud.1 ud.2 s.ubike_end.lat s.ubike_end.lng ≤
          haversine ud.1 ud.2 y.lat y.lng) ∧
       (∃ l1 l2, ls2 = l1 ++ s.ubike_end :: l2 ∧
          ∀ y ∈ l1, haversine ud.1 ud.2 s.ubike_end.lat s.ubike_end.lng <
            haversine ud.1 ud.2 y.lat y.lng))) :=
  find_nearest_ubike_spec 0 0 [⟨some "S", 1, 1, none, none⟩] 1
    (by decide) (by simp)

end UbikeApp
